import Mathlib

/-!
Verification development for the THQ standalone telemetry server.

The Rust sources are shallowly embedded: pure fragments become Lean
functions, the stateful estimator becomes explicit state passing over a
device-track association list, `f64` values become a four-way sum
(`nan`, two infinities, finite rationals), machine integers become `Int`
or `Nat` (timestamps are `u64` milliseconds and use saturating
subtraction, which is `Nat` subtraction), and fallible code returns
`Option` or `Except`.
-/

namespace THQ

/-- Model of Rust `f64` values as used by the validation code: either a
non-finite value or a finite value represented exactly as a rational. -/
inductive F64 where
  | nan : F64
  | inf : F64
  | neginf : F64
  | fin (q : ℚ) : F64
deriving DecidableEq, Repr

/-- Mirror of `f64::is_finite`. -/
def F64.isFinite : F64 → Bool
  | .fin _ => true
  | _ => false

/-- IEEE-754 strict less-than on the model (any comparison with NaN is false). -/
def F64.lt : F64 → F64 → Bool
  | .nan, _ => false
  | _, .nan => false
  | .neginf, .neginf => false
  | .neginf, _ => true
  | _, .neginf => false
  | .inf, _ => false
  | .fin _, .inf => true
  | .fin p, .fin q => p < q

/-- Rust `a > b` on `f64`, written as `lt` flipped. -/
def F64.gt (a b : F64) : Bool := F64.lt b a

/-- Mirror of `f64::abs`. -/
def F64.abs : F64 → F64
  | .nan => .nan
  | .inf => .inf
  | .neginf => .inf
  | .fin q => .fin |q|

/-- domain.rs: `MovementState`. -/
inductive MovementState where
  | arrived | approaching | passing | moving
deriving DecidableEq, Repr

/-- domain.rs: `Coords` (incoming coordinates). -/
structure Coords where
  latitude : F64
  longitude : F64
  accuracy : Option F64
  speed : Option F64
deriving DecidableEq, Repr

/-- domain.rs: `OutgoingCoords`. -/
structure OutgoingCoords where
  latitude : F64
  longitude : F64
  accuracy : Option F64
  speed : Option F64
deriving DecidableEq, Repr

/-- domain.rs: `LocationUpdateRequest`, the REST location payload. -/
structure LocationUpdateRequest where
  id : Option String
  device : String
  state : MovementState
  station_id : Option Int
  line_id : Int
  coords : Coords
  timestamp : Nat
deriving DecidableEq, Repr

/-- domain.rs: `OutgoingLocation`, the broadcast and persisted location value. -/
structure OutgoingLocation where
  id : String
  device : String
  state : MovementState
  station_id : Option Int
  line_id : Int
  coords : OutgoingCoords
  timestamp : Nat
  segment_id : Option String
  from_station_id : Option Int
  to_station_id : Option Int
deriving DecidableEq, Repr

/-- JSON values, the decoded form of a duplex text frame. -/
inductive Json where
  | null : Json
  | bool (b : Bool) : Json
  | num (q : ℚ) : Json
  | str (s : String) : Json
  | arr (xs : List Json) : Json
  | obj (fields : List (String × Json)) : Json
deriving Repr

/-- Object field lookup (first binding wins, as in serde maps). -/
def lookupField (fields : List (String × Json)) (key : String) : Option Json :=
  match fields with
  | [] => none
  | (k, v) :: rest => if k = key then some v else lookupField rest key

/-- domain.rs: `IncomingMessage`, the duplex client-to-server message type.
The only variant is `Subscribe`; the duplex protocol carries no
location or log ingestion variant. -/
inductive IncomingMessage where
  | subscribe (device : Option String) : IncomingMessage
deriving DecidableEq, Repr

/-- Decoding of the internally tagged `IncomingMessage` enum from a JSON
value, following serde semantics: the `type` field selects the variant;
an unknown or missing tag is a parse error; the optional `device` field
defaults to `None` and must be a string or `null` when present. -/
def parseIncomingMessage (j : Json) : Option IncomingMessage :=
  match j with
  | .obj fields =>
    match lookupField fields "type" with
    | some (.str tag) =>
      if tag = "subscribe" then
        match lookupField fields "device" with
        | none => some (.subscribe none)
        | some .null => some (.subscribe none)
        | some (.str d) => some (.subscribe (some d))
        | some _ => none
      else none
    | _ => none
  | _ => none

/-- config.rs: resolution of `ring_size` from the layered file/CLI value:
default 1000, then forced to at least 1. -/
def resolveRingSize (configured : Option Nat) : Nat :=
  max (configured.getD 1000) 1

/-- state.rs: the buffer step of `TelemetryHub::broadcast`: if the buffer
is at (or above) capacity the oldest entry is popped, then the new
payload is pushed at the back. -/
def broadcastBuffer (capacity : Nat) (buf : List String) (msg : String) : List String :=
  (if capacity ≤ buf.length then buf.tail else buf) ++ [msg]

/-- state.rs: `TelemetryHub::snapshot` returns the buffer oldest-first. -/
def snapshotBuffer (buf : List String) : List String := buf

/-- domain.rs: `ErrorType` (the only two variants present in the code). -/
inductive ErrorType where
  | websocketMessageError | jsonParseError
deriving DecidableEq, Repr

/-- Frames the connection handler sends to the originating client. -/
inductive ServerFrame where
  | payload (text : String) : ServerFrame
  | errorFrame (t : ErrorType) : ServerFrame
deriving DecidableEq, Repr

/-- Result of `handle_text`: the hub state after the call, the frames
unicast to the sender, the payloads broadcast to all subscribers, and
the connection's `subscribed` flag. -/
structure HandleTextResult where
  buffer : List String
  subscribers : List String
  toSender : List ServerFrame
  broadcasts : List String
  subscribed : Bool
deriving DecidableEq, Repr

/-- server.rs: `handle_text` on a decoded JSON text frame. A frame that
does not decode as `IncomingMessage` unicasts a `json_parse_error` to
the sender. A first `subscribe` registers the client and replays the
snapshot; later `subscribe` frames are ignored. No branch broadcasts. -/
def handleText (j : Json) (buffer : List String) (subscribers : List String)
    (clientId : String) (subscribed : Bool) : HandleTextResult :=
  match parseIncomingMessage j with
  | none =>
    { buffer := buffer, subscribers := subscribers
      toSender := [.errorFrame .jsonParseError], broadcasts := [], subscribed := subscribed }
  | some (.subscribe _device) =>
    if !subscribed then
      { buffer := buffer, subscribers := subscribers ++ [clientId]
        toSender := (snapshotBuffer buffer).map .payload, broadcasts := [], subscribed := true }
    else
      { buffer := buffer, subscribers := subscribers
        toSender := [], broadcasts := [], subscribed := subscribed }

/-- segment.rs: `LineGraph`, with the `HashMap` of neighbor lists embedded
as an association list (lookup semantics only; at most one binding per key
by construction). -/
structure LineGraph where
  stations : List Int
  neighbors : List (Int × List Int)
deriving Repr

/-- Append `v` to the neighbor list of `k`, creating the entry if absent
(mirror of `neighbors.entry(k).or_default().push(v)`). -/
def pushNeighbor (m : List (Int × List Int)) (k v : Int) : List (Int × List Int) :=
  match m with
  | [] => [(k, [v])]
  | (k0, vs) :: rest =>
    if k0 = k then (k0, vs ++ [v]) :: rest else (k0, vs) :: pushNeighbor rest k v

/-- segment.rs: `LineGraph::finalize`: sort and dedup every neighbor list,
and take the sorted key set as the station list. Rust's
`sort_unstable` is modelled by `insertionSort`, which computes the same
sorted list on a total order on `Int`. -/
def LineGraph.finalize (neighbors : List (Int × List Int)) : LineGraph :=
  let cleaned := neighbors.map fun kv => (kv.1, (kv.2.insertionSort (· ≤ ·)).dedup)
  { stations := (cleaned.map (·.1)).insertionSort (· ≤ ·), neighbors := cleaned }

/-- Consecutive pairs of a list, the image of Rust `windows(2)`. -/
def adjacentPairs : List Int → List (Int × Int)
  | a :: b :: rest => (a, b) :: adjacentPairs (b :: rest)
  | _ => []

/-- segment.rs: `LineGraph::from_ordered_path` (the JSON topology format):
adjacency between consecutive stations of the path, both directions. -/
def LineGraph.fromOrderedPath (stations : List Int) : LineGraph :=
  let neighbors := (adjacentPairs stations).foldl
    (fun m p => pushNeighbor (pushNeighbor m p.1 p.2) p.2 p.1) []
  LineGraph.finalize neighbors

/-- segment.rs: `LineTopology`, a map from line id to its graph. -/
structure LineTopology where
  lines : List (Int × LineGraph)
deriving Repr

/-- segment.rs: `LineTopology::stations`. -/
def LineTopology.stationsOf (t : LineTopology) (line_id : Int) : Option (List Int) :=
  (t.lines.lookup line_id).map (·.stations)

/-- segment.rs: `LineTopology::neighbors`. -/
def LineTopology.neighborsOf (t : LineTopology) (line_id station_id : Int) : Option (List Int) :=
  (t.lines.lookup line_id).bind fun g => g.neighbors.lookup station_id

/-- segment.rs: `Segment`. -/
structure Segment where
  line_id : Int
  from_station_id : Int
  to_station_id : Int
deriving DecidableEq, Repr

/-- segment.rs: `Segment::segment_id`, the `"line:from:to"` string. -/
def Segment.segmentId (s : Segment) : String :=
  toString s.line_id ++ ":" ++ toString s.from_station_id ++ ":" ++ toString s.to_station_id

/-- segment.rs: `StationPoint`. -/
structure StationPoint where
  station_id : Int
  line_id : Int
deriving DecidableEq, Repr

/-- segment.rs: `DeviceTrack` (timestamps are u64 milliseconds). -/
structure DeviceTrack where
  last_station : Option StationPoint := none
  prev_station : Option StationPoint := none
  last_segment : Option Segment := none
  last_seen : Nat := 0
deriving DecidableEq, Repr, Inhabited

/-- segment.rs: `SegmentEstimator::reset_track`. -/
def resetTrack (track : DeviceTrack) : DeviceTrack :=
  { track with last_station := none, prev_station := none, last_segment := none }

/-- segment.rs: `SegmentEstimator::reset_track_if_line_changed`. -/
def resetTrackIfLineChanged (track : DeviceTrack) (new_line_id : Int) : DeviceTrack :=
  match track.last_station with
  | some last => if last.line_id ≠ new_line_id then resetTrack track else track
  | none => track

/-- segment.rs: `SegmentEstimator::track_on_different_line`. -/
def trackOnDifferentLine (track : DeviceTrack) (line_id : Int) : Bool :=
  match track.last_station with
  | some s => s.line_id ≠ line_id
  | none => false

/-- segment.rs: the TTL constant `TRACK_TTL_SECS = 6 * 60 * 60`, whose
comment reads `6 hours`. -/
def trackTtlSecs : Nat := 6 * 60 * 60

/-- segment.rs: `SegmentEstimator::prune_stale_tracks`: retain tracks with
`now.saturating_sub(last_seen) <= TRACK_TTL_SECS`, where `now` and
`last_seen` are u64 millisecond timestamps. -/
def pruneStaleTracks (tracks : List (String × DeviceTrack)) (now : Nat) :
    List (String × DeviceTrack) :=
  tracks.filter fun kv => now - kv.2.last_seen ≤ trackTtlSecs

/-- Store a track under a device key (the `HashMap` entry write-back). -/
def updateTrack (tracks : List (String × DeviceTrack)) (device : String)
    (track : DeviceTrack) : List (String × DeviceTrack) :=
  match tracks with
  | [] => [(device, track)]
  | (d, t) :: rest =>
    if d = device then (d, track) :: rest else (d, t) :: updateTrack rest device track

/-- segment.rs: `SegmentEstimator::handle_station_event` (states
`arrived` and `passing`), returning the updated track and the emitted
segment, if any. -/
def handleStationEvent (topo : LineTopology) (track : DeviceTrack)
    (loc : OutgoingLocation) (stations : List Int) : DeviceTrack × Option Segment :=
  match loc.station_id with
  | none => (track, none)
  | some station_id =>
    if !(stations.contains station_id) then
      (resetTrackIfLineChanged track loc.line_id, none)
    else
      let track1 := resetTrackIfLineChanged track loc.line_id
      let prev := track1.last_station
      let track2 := { track1 with
        last_station := none
        prev_station := match prev with | some p => some p | none => track1.prev_station }
      let current : StationPoint := { station_id := station_id, line_id := loc.line_id }
      let segment := prev.bind fun prev_station =>
        match topo.neighborsOf loc.line_id prev_station.station_id with
        | some n =>
          if n.contains station_id then
            some { line_id := loc.line_id, from_station_id := prev_station.station_id
                   to_station_id := station_id }
          else none
        | none => none
      ({ track2 with last_segment := segment, last_station := some current }, segment)

/-- segment.rs: `SegmentEstimator::handle_continuous` (states
`approaching` and `moving`): pick a neighbor of the last station that is
not the previous station, smallest id first (`sort_unstable` then index
0, modelled by `insertionSort` and head). -/
def handleContinuous (topo : LineTopology) (track : DeviceTrack)
    (loc : OutgoingLocation) : DeviceTrack × Option Segment :=
  if trackOnDifferentLine track loc.line_id then (resetTrack track, none)
  else
    match track.last_station with
    | none => (track, none)
    | some last_station =>
      match topo.neighborsOf loc.line_id last_station.station_id with
      | none => (track, none)
      | some n =>
        if n.isEmpty then (track, none)
        else
          let preferred_avoid := track.prev_station.map (·.station_id)
          let candidates := n.filter fun x => some x ≠ preferred_avoid
          if candidates.isEmpty then (track, none)
          else
            match candidates.insertionSort (· ≤ ·) with
            | [] => (track, none)
            | to_station_id :: _ =>
              let seg : Segment := { line_id := loc.line_id
                                     from_station_id := last_station.station_id
                                     to_station_id := to_station_id }
              ({ track with last_segment := some seg }, some seg)

/-- segment.rs: `SegmentEstimator::estimate_segment`: unknown line short
circuits; otherwise prune stale tracks, refresh `last_seen`, branch on the
movement state, and write the track back. -/
def estimateSegment (topo : LineTopology) (tracks : List (String × DeviceTrack))
    (loc : OutgoingLocation) : List (String × DeviceTrack) × Option Segment :=
  match topo.stationsOf loc.line_id with
  | none => (tracks, none)
  | some stations =>
    let tracks1 := pruneStaleTracks tracks loc.timestamp
    let track0 := (tracks1.lookup loc.device).getD default
    let track1 := { track0 with last_seen := loc.timestamp }
    let stepped :=
      match loc.state with
      | .arrived | .passing => handleStationEvent topo track1 loc stations
      | .approaching | .moving => handleContinuous topo track1 loc
    (updateTrack tracks1 loc.device stepped.1, stepped.2)

/-- segment.rs: `SegmentEstimator::annotate`: run the estimator and write
the three segment fields (or clear all three). -/
def annotate (topo : LineTopology) (tracks : List (String × DeviceTrack))
    (loc : OutgoingLocation) : List (String × DeviceTrack) × OutgoingLocation :=
  let stepped := estimateSegment topo tracks loc
  match stepped.2 with
  | some seg =>
    (stepped.1, { loc with from_station_id := some seg.from_station_id
                           to_station_id := some seg.to_station_id
                           segment_id := some seg.segmentId })
  | none =>
    (stepped.1, { loc with segment_id := none, from_station_id := none
                           to_station_id := none })

/-- server.rs: `ParsedProtocols`, the result of scanning the websocket
protocol offer header. -/
structure ParsedProtocols where
  has_thq : Bool
  token : Option String
deriving DecidableEq, Repr

/-- ASCII lowercase of a string, for `eq_ignore_ascii_case`. -/
def asciiLower (s : String) : String := String.mk (s.data.map Char.toLower)

/-- Split a character list at every comma (the image of Rust
`str::split(',')`: n commas give n+1 parts, empties included). -/
def splitCommaAux : List Char → List Char → List String
  | [], acc => [String.mk acc.reverse]
  | c :: rest, acc =>
    if c = ',' then String.mk acc.reverse :: splitCommaAux rest []
    else splitCommaAux rest (c :: acc)

/-- Split a string at every comma. -/
def splitComma (s : String) : List String := splitCommaAux s.data []

/-- Strip leading and trailing whitespace (Rust `str::trim`). -/
def trimWs (s : String) : String :=
  String.mk (((s.data.dropWhile Char.isWhitespace).reverse.dropWhile Char.isWhitespace).reverse)

/-- Strip the `thq-auth-` marker from the front of an entry, if present
(Rust `strip_prefix`). -/
def dropAuthMarker (entry : String) : Option String :=
  if List.isPrefixOf "thq-auth-".data entry.data then
    some (String.mk (entry.data.drop 9))
  else none

/-- server.rs: `parse_protocol_header`: split the header on commas, trim,
drop empties; `thq` is recognized case-insensitively; the token is taken
from the first entry carrying the `thq-auth-` marker. -/
def parseProtocolHeader (raw : String) : ParsedProtocols :=
  (((splitComma raw).map trimWs).filter (fun e => !e.isEmpty)).foldl
    (fun acc entry =>
      let acc1 := if asciiLower entry = "thq" then { acc with has_thq := true } else acc
      match dropAuthMarker entry with
      | some rest =>
        match acc1.token with
        | none => { acc1 with token := some rest }
        | some _ => acc1
      | none => acc1)
    { has_thq := false, token := none }

/-- server.rs: `AuthError` for the websocket upgrade. -/
inductive AuthError where
  | missingHeader | missingThqProtocol | missingToken | tokenNotConfigured | tokenMismatch
deriving DecidableEq, Repr

/-- server.rs: `AuthError::status`: 500 for an unconfigured token, 401
otherwise. -/
def AuthError.status : AuthError → Nat
  | .tokenNotConfigured => 500
  | _ => 401

/-- server.rs: `AuthConfig`. -/
structure AuthConfig where
  token : Option String
  required : Bool
deriving DecidableEq, Repr

/-- server.rs: `enforce_ws_auth`. The constant-time byte comparison is
modelled as string equality (timing is outside the embedding). -/
def enforceWsAuth (header : Option String) (auth : AuthConfig) : Except AuthError Unit :=
  if !auth.required then .ok ()
  else
    match header with
    | none => .error .missingHeader
    | some raw =>
      let parsed := parseProtocolHeader raw
      if !parsed.has_thq then .error .missingThqProtocol
      else
        match parsed.token with
        | none => .error .missingToken
        | some token =>
          match auth.token with
          | none => .error .tokenNotConfigured
          | some expected =>
            if token = expected then .ok () else .error .tokenMismatch

/-- server.rs: the protocol echo in `ws_handler`: the server answers with
the `thq` subprotocol exactly when the client offered it. -/
def echoesThq (header : Option String) : Bool :=
  match header with
  | some raw => (parseProtocolHeader raw).has_thq
  | none => false

/-- Validation failures of `post_location`; every one is an HTTP 400. -/
inductive PostError where
  | latLonNotFinite | latLonOutOfRange | speedNotFinite | accuracyNotFinite | accuracyNegative
deriving DecidableEq, Repr

/-- HTTP status of every `post_location` validation failure. -/
def PostError.status : PostError → Nat := fun _ => 400

/-- server.rs: `post_location`. Validates coordinates, speed and accuracy,
loses `station_id` for continuous states, fills the id (`freshId` stands
for the UUID minted when the request carries none) and builds the
`OutgoingLocation` handed to the estimator, hub and storage. -/
def postLocation (freshId : String) (req : LocationUpdateRequest) :
    Except PostError OutgoingLocation :=
  if !req.coords.latitude.isFinite || !req.coords.longitude.isFinite then
    .error .latLonNotFinite
  else if F64.gt req.coords.latitude.abs (.fin 90)
      || F64.gt req.coords.longitude.abs (.fin 180) then
    .error .latLonOutOfRange
  else
    let speedStep : Except PostError (Option F64) :=
      match req.coords.speed with
      | some s =>
        if !s.isFinite then .error .speedNotFinite
        else if F64.lt s (.fin 0) then .ok none
        else .ok (some s)
      | none => .ok none
    match speedStep with
    | .error e => .error e
    | .ok speed =>
      let accCheck : Option PostError :=
        match req.coords.accuracy with
        | some acc =>
          if !acc.isFinite then some .accuracyNotFinite
          else if F64.lt acc (.fin 0) then some .accuracyNegative
          else none
        | none => none
      match accCheck with
      | some e => .error e
      | none =>
        let station_id : Option Int :=
          match req.state with
          | .moving | .approaching => none
          | _ => req.station_id
        let id := req.id.getD freshId
        .ok { id := id, device := req.device, state := req.state
              station_id := station_id, line_id := req.line_id
              coords := { latitude := req.coords.latitude
                          longitude := req.coords.longitude
                          accuracy := req.coords.accuracy
                          speed := speed }
              timestamp := req.timestamp
              segment_id := none, from_station_id := none, to_station_id := none }

/-- graphql.rs: `TimeBucketSize`. -/
inductive TimeBucketSize where
  | minute | hour | day
deriving DecidableEq, Repr

/-- graphql.rs: `TimeBucketSize::trunc_unit`. -/
def TimeBucketSize.truncUnit : TimeBucketSize → String
  | .minute => "minute"
  | .hour => "hour"
  | .day => "day"

/-- graphql.rs: `TimeBucketSize::bucket_seconds`. -/
def TimeBucketSize.bucketSeconds : TimeBucketSize → Int
  | .minute => 60
  | .hour => 60 * 60
  | .day => 60 * 60 * 24

/-- graphql.rs: `TimeBucketSize::max_duration`, in seconds (chrono
`Duration::days(n)` is `n * 86400` seconds; times are modelled at second
resolution). -/
def TimeBucketSize.maxDurationSecs : TimeBucketSize → Int
  | .minute => 7 * 86400
  | .hour => 90 * 86400
  | .day => 365 * 86400

/-- graphql.rs: `HARD_LIMIT`. -/
def hardLimit : Int := 2000

/-- Numeric value of a digit list, or `none` when empty or when any
character is not an ASCII digit. -/
def digitsVal (cs : List Char) : Option Nat :=
  if cs.isEmpty then none
  else
    cs.foldl
      (fun acc c => acc.bind fun n =>
        if c.isDigit then some (n * 10 + (c.toNat - 48)) else none)
      (some 0)

/-- Rust `str::parse::<i32>`: an optional sign, one or more ASCII digits,
and the value must fit in `i32`. -/
def parseI32 (s : String) : Option Int :=
  let signed : Int × List Char :=
    match s.data with
    | '+' :: r => (1, r)
    | '-' :: r => (-1, r)
    | r => (1, r)
  match digitsVal signed.2 with
  | none => none
  | some n =>
    let v : Int := signed.1 * (n : Int)
    if v < -(2 ^ 31) ∨ (2 ^ 31 - 1 : Int) < v then none else some v

/-- graphql.rs: `estimate_bucket_count` (`num_seconds` of the span, then
a rounded-up division; non-positive spans give 0). -/
def estimateBucketCount (fromTs toTs bucketSeconds : Int) : Int :=
  let totalSecs := toTs - fromTs
  if totalSecs ≤ 0 then 0 else (totalSecs + bucketSeconds - 1) / bucketSeconds

/-- Resolver errors of `accuracy_by_line`, one constructor per distinct
failure message in the code. -/
inductive GqlError where
  | reportsUnavailable | fromNotBeforeTo | spanExceedsMax | bucketCountExceedsLimit
  | lineIdNotNumeric
deriving DecidableEq, Repr

/-- Arguments of the `fetch_line_accuracy` call issued on the success
path of the resolver. -/
structure FetchCall where
  line_id : Int
  fromTs : Int
  toTs : Int
  truncUnit : String
  bucket_seconds : Int
  limit : Int
deriving DecidableEq, Repr

/-- graphql.rs: `QueryRoot::accuracy_by_line`, with `DateTime<Utc>`
modelled as integer epoch seconds and the GraphQL `limit` default (500)
applied when the argument is omitted. On success it returns the
`fetch_line_accuracy` call it issues. -/
def accuracyByLine (storageEnabled : Bool) (line_id : String) (fromTs toTs : Int)
    (bucket_size : TimeBucketSize) (limitArg : Option Int) : Except GqlError FetchCall :=
  let limit0 := limitArg.getD 500
  if !storageEnabled then .error .reportsUnavailable
  else if toTs ≤ fromTs then .error .fromNotBeforeTo
  else if bucket_size.maxDurationSecs < toTs - fromTs then .error .spanExceedsMax
  else
    let limit := max 1 (min limit0 hardLimit)
    let bucket_seconds := bucket_size.bucketSeconds
    let estimated := estimateBucketCount fromTs toTs bucket_seconds
    if hardLimit < estimated then .error .bucketCountExceedsLimit
    else
      match parseI32 line_id with
      | none => .error .lineIdNotNumeric
      | some n =>
        .ok { line_id := n, fromTs := fromTs, toTs := toTs
              truncUnit := bucket_size.truncUnit, bucket_seconds := bucket_seconds
              limit := limit }

/-- Decidable absence of self-loops in a topology: no station lists
itself among its own neighbors. -/
def noSelfLoop (t : LineTopology) : Bool :=
  t.lines.all fun e => e.2.neighbors.all fun kv => !(kv.2.contains kv.1)

/-- Concrete device track for the prune analysis: created at 1 ms. -/
def c3Track : DeviceTrack := { last_seen := 1 }

/-- Concrete REST request: state `moving` with a supplied `station_id`. -/
def c4Req : LocationUpdateRequest :=
  { id := none, device := "test-device", state := .moving, station_id := some 42
    line_id := 1
    coords := { latitude := .fin 35, longitude := .fin 139, accuracy := none, speed := none }
    timestamp := 123 }

/-- Outgoing value built by `post_location` from `c4Req` with a minted id. -/
def c4Out : OutgoingLocation :=
  { id := "fresh", device := "test-device", state := .moving, station_id := none, line_id := 1
    coords := { latitude := .fin 35, longitude := .fin 139, accuracy := none, speed := none }
    timestamp := 123, segment_id := none, from_station_id := none, to_station_id := none }

/-- Concrete REST request with `coords.speed` absent. -/
def c7Req : LocationUpdateRequest :=
  { id := some "id-1", device := "d", state := .moving, station_id := none, line_id := 1
    coords := { latitude := .fin 35, longitude := .fin 139, accuracy := none, speed := none }
    timestamp := 123 }

/-- Concrete REST request with a negative speed. -/
def c7ReqNeg : LocationUpdateRequest :=
  { c7Req with coords := { c7Req.coords with speed := some (.fin (-1)) } }

/-- Concrete REST request with a NaN speed. -/
def c7ReqNan : LocationUpdateRequest :=
  { c7Req with coords := { c7Req.coords with speed := some .nan } }

/-- Fields of the example duplex `location_update` frame (spec scenario 1). -/
def c1Fields : List (String × Json) :=
  [("type", .str "location_update"), ("device", .str "d"), ("state", .str "moving")
   , ("line_id", .num 1)
   , ("coords", .obj [("latitude", .num 35), ("longitude", .num 139)
                      , ("accuracy", .num 5), ("speed", .num 12)])
   , ("timestamp", .num 123)]

/-- The example duplex `location_update` frame as a JSON value. -/
def c1Frame : Json := .obj c1Fields

/-- Protocol offer header listing two auth entries: a wrong one first and
the correct one second. -/
def c9Header : String := "thq, thq-auth-wrong, thq-auth-secret"

/-- Topology loaded from the ordered-path JSON form on a degenerate path
that repeats a station, producing a self-loop. -/
def c5Topo : LineTopology := { lines := [(1, LineGraph.fromOrderedPath [101, 101])] }

/-- First arrival event at station 101 on line 1. -/
def c5Loc1 : OutgoingLocation :=
  { id := "1", device := "dev", state := .arrived, station_id := some 101, line_id := 1
    coords := { latitude := .fin 0, longitude := .fin 0, accuracy := none, speed := none }
    timestamp := 1, segment_id := none, from_station_id := none, to_station_id := none }

/-- Second arrival event at the same station 101. -/
def c5Loc2 : OutgoingLocation := { c5Loc1 with timestamp := 2 }

/-- Topology with line 1 as the simple path 101 - 102 - 103. -/
def pathTopo : LineTopology := { lines := [(1, LineGraph.fromOrderedPath [101, 102, 103])] }

/-- First arrival at station 101 on line 1 of the three-station path. -/
def c5WitLoc1 : OutgoingLocation :=
  { id := "w1", device := "w", state := .arrived, station_id := some 101, line_id := 1
    coords := { latitude := .fin 0, longitude := .fin 0, accuracy := none, speed := none }
    timestamp := 1, segment_id := none, from_station_id := none, to_station_id := none }

/-- Following arrival at station 102 on line 1. -/
def c5WitLoc2 : OutgoingLocation := { c5WitLoc1 with station_id := some 102, timestamp := 2 }

/-- Track that has visited 101 then 102 on line 1. -/
def c6Track : DeviceTrack :=
  { last_station := some { station_id := 102, line_id := 1 }
    prev_station := some { station_id := 101, line_id := 1 }
    last_segment := none, last_seen := 2 }

/-- A `moving` update on line 1 (no station id). -/
def c6Loc : OutgoingLocation :=
  { id := "2", device := "dev", state := .moving, station_id := none, line_id := 1
    coords := { latitude := .fin 0, longitude := .fin 0, accuracy := none, speed := none }
    timestamp := 3, segment_id := none, from_station_id := none, to_station_id := none }

/-! Helper lemmas shared by several claim proofs. -/

/-- A successful association-list lookup exhibits a member pair. -/
theorem lookup_mem {α β : Type} [BEq α] [LawfulBEq α] {l : List (α × β)} {k : α} {v : β}
    (h : l.lookup k = some v) : (k, v) ∈ l := by
  induction l with
  | nil => simp [List.lookup] at h
  | cons hd tl ih =>
    obtain ⟨a, b⟩ := hd
    rw [List.lookup] at h
    rcases hk : k == a with _ | _
    · rw [hk] at h
      exact List.mem_cons_of_mem _ (ih h)
    · rw [hk] at h
      have hka : k = a := by
        have := hk
        simpa using this
      cases h
      exact hka ▸ List.mem_cons_self _ _

/-- Every segment emitted by a station event carries the event's line id
and joins two stations that the topology lists as neighbors. -/
theorem handleStationEvent_emits (topo : LineTopology) (track : DeviceTrack)
    (loc : OutgoingLocation) (stations : List Int) (seg : Segment)
    (h : (handleStationEvent topo track loc stations).2 = some seg) :
    seg.line_id = loc.line_id
    ∧ ∃ ns, topo.neighborsOf loc.line_id seg.from_station_id = some ns
        ∧ seg.to_station_id ∈ ns := by
  unfold handleStationEvent at h
  split at h
  · simp at h
  · split at h
    · simp at h
    · dsimp only at h
      rw [Option.bind_eq_some] at h
      obtain ⟨prev_station, hprev, h⟩ := h
      split at h
      case h_2 => simp at h
      case h_1 n hns =>
        split at h
        case isFalse => simp at h
        case isTrue hmem =>
          cases h
          exact ⟨rfl, n, hns, by simpa using hmem⟩

/-- Every segment emitted on the continuous path carries the event's line
id and joins two stations that the topology lists as neighbors. -/
theorem handleContinuous_emits (topo : LineTopology) (track : DeviceTrack)
    (loc : OutgoingLocation) (seg : Segment)
    (h : (handleContinuous topo track loc).2 = some seg) :
    seg.line_id = loc.line_id
    ∧ ∃ ns, topo.neighborsOf loc.line_id seg.from_station_id = some ns
        ∧ seg.to_station_id ∈ ns := by
  unfold handleContinuous at h
  split at h
  · simp at h
  · split at h
    · simp at h
    next last_station hls =>
      split at h
      · simp at h
      next n hns =>
        split at h
        · simp at h
        next hne =>
          dsimp only at h
          split at h
          · simp at h
          next hce =>
            split at h
            · simp at h
            next c rest hsort =>
              cases h
              refine ⟨rfl, n, hns, ?_⟩
              have hcmem := (List.perm_insertionSort (fun a b : Int => a ≤ b) _).mem_iff.mp
                (by rw [hsort]; exact List.mem_cons_self c rest)
              exact List.mem_of_mem_filter hcmem

/-- Every segment emitted by one estimator step carries the event's line
id and joins two stations that the topology lists as neighbors. -/
theorem estimateSegment_emits (topo : LineTopology) (tracks : List (String × DeviceTrack))
    (loc : OutgoingLocation) (seg : Segment)
    (h : (estimateSegment topo tracks loc).2 = some seg) :
    seg.line_id = loc.line_id
    ∧ ∃ ns, topo.neighborsOf loc.line_id seg.from_station_id = some ns
        ∧ seg.to_station_id ∈ ns := by
  unfold estimateSegment at h
  split at h
  · simp at h
  next stations hsta =>
    dsimp only at h
    split at h
    · exact handleStationEvent_emits topo _ loc stations seg h
    · exact handleStationEvent_emits topo _ loc stations seg h
    · exact handleContinuous_emits topo _ loc seg h
    · exact handleContinuous_emits topo _ loc seg h

/-- The estimator's annotation step never touches `station_id`. -/
theorem annotate_station_id (topo : LineTopology) (tracks : List (String × DeviceTrack))
    (loc : OutgoingLocation) : ((annotate topo tracks loc).2).station_id = loc.station_id := by
  unfold annotate
  cases h : (estimateSegment topo tracks loc).2 <;> simp [h]

/-- Shape of the outgoing value accepted by `post_location`: the state is
the request's, and `station_id` is the request's except that continuous
states drop it. -/
theorem postLocation_ok_shape (freshId : String) (req : LocationUpdateRequest)
    (loc : OutgoingLocation) (h : postLocation freshId req = .ok loc) :
    loc.state = req.state
    ∧ loc.station_id = (match req.state with
        | .moving | .approaching => none
        | _ => req.station_id)
    ∧ loc.coords.speed = (match req.coords.speed with
        | some s => if !s.isFinite then none
                    else if F64.lt s (.fin 0) then none
                    else some s
        | none => none) := by
  unfold postLocation at h
  split at h
  · cases h
  · split at h
    · cases h
    · dsimp only at h
      split at h
      · cases h
      next speed hspeed =>
        split at h
        · cases h
        next hacc =>
          cases h
          refine ⟨rfl, rfl, ?_⟩
          revert hspeed
          split
          next s =>
            split
            · intro hsp; cases hsp
            · split
              · intro hsp; cases hsp; rfl
              · intro hsp; cases hsp; rfl
          · intro hsp; cases hsp; rfl

/-! Claim theorems. -/

/-- Claim C2: with capacity taken from the resolved ring size (always at
least 1), every `broadcast` leaves the ring buffer no longer than the
capacity; a buffer at capacity first discards its oldest payload and then
appends the new one; and a capacity-1 hub holds exactly the second of two
broadcast payloads. -/
theorem c2_hub_ring_bound (configured : Option Nat) (buf : List String) (msg : String)
    (h : buf.length ≤ resolveRingSize configured) :
    (broadcastBuffer (resolveRingSize configured) buf msg).length ≤ resolveRingSize configured
    ∧ (buf.length = resolveRingSize configured →
        broadcastBuffer (resolveRingSize configured) buf msg = buf.tail ++ [msg])
    ∧ ∀ p1 p2 : String,
        snapshotBuffer (broadcastBuffer (resolveRingSize (some 1))
          (broadcastBuffer (resolveRingSize (some 1)) [] p1) p2) = [p2] := by
  have hcap : 1 ≤ resolveRingSize configured := le_max_right _ _
  refine ⟨?_, ?_, ?_⟩
  · unfold broadcastBuffer
    by_cases hb : resolveRingSize configured ≤ buf.length
    · rw [if_pos hb]
      simp only [List.length_append, List.length_tail, List.length_singleton]
      omega
    · rw [if_neg hb]
      simp only [List.length_append, List.length_singleton]
      omega
  · intro he
    unfold broadcastBuffer
    rw [if_pos (he ▸ le_refl _)]
  · intro p1 p2
    rfl

/-- Witness for C2 at a concrete capacity-2 hub holding two payloads. -/
theorem c2_hub_ring_bound_witness :
    (["a", "b"] : List String).length ≤ resolveRingSize (some 2)
    ∧ (broadcastBuffer (resolveRingSize (some 2)) ["a", "b"] "c").length
        ≤ resolveRingSize (some 2)
    ∧ snapshotBuffer (broadcastBuffer (resolveRingSize (some 1))
        (broadcastBuffer (resolveRingSize (some 1)) [] "x") "y") = ["y"] :=
  ⟨by decide, (c2_hub_ring_bound (some 2) ["a", "b"] "c" (by decide)).1,
    (c2_hub_ring_bound (some 2) ["a", "b"] "c" (by decide)).2.2 "x" "y"⟩

/-- Claim C3: the pruning threshold. The code compares the millisecond
idle time against `TRACK_TTL_SECS = 21600` without converting the
constant to milliseconds, so a track idle for one hour (3,600,000 ms,
well under six hours) is pruned, while the claim retains every track
idle less than `6*3600*1000` ms; retention actually stops at 21,600 ms
of idleness. -/
theorem c3_prune_ttl_units :
    pruneStaleTracks [("dev", c3Track)] 3600001 = []
    ∧ pruneStaleTracks [("dev", c3Track)] 21601 = [("dev", c3Track)]
    ∧ pruneStaleTracks [("dev", c3Track)] 21602 = []
    ∧ trackTtlSecs = 21600
    ∧ 3600001 - c3Track.last_seen ≤ 6 * 3600 * 1000 := by
  refine ⟨rfl, rfl, rfl, rfl, by decide⟩

/-- Claim C4: an accepted REST location with a continuous state carries no
`station_id`, both as built by `post_location` and after the estimator's
annotation that precedes broadcast and persistence. -/
theorem c4_station_id_null_for_continuous (topo : LineTopology)
    (tracks : List (String × DeviceTrack)) (freshId : String)
    (req : LocationUpdateRequest) (loc : OutgoingLocation)
    (h : postLocation freshId req = .ok loc)
    (hs : loc.state = .moving ∨ loc.state = .approaching) :
    loc.station_id = none ∧ ((annotate topo tracks loc).2).station_id = none := by
  obtain ⟨hstate, hsid, -⟩ := postLocation_ok_shape freshId req loc h
  have hr : req.state = .moving ∨ req.state = .approaching := by
    rw [← hstate]; exact hs
  have hnone : loc.station_id = none := by
    rcases hr with h1 | h1 <;> rw [hsid, h1]
  exact ⟨hnone, by rw [annotate_station_id, hnone]⟩

/-- Witness for C4: the moving request with `station_id = 42` comes out
with `station_id = null`. -/
theorem c4_station_id_witness :
    postLocation "fresh" c4Req = .ok c4Out
    ∧ (c4Out.state = .moving ∨ c4Out.state = .approaching)
    ∧ (c4Out.station_id = none
        ∧ ((annotate { lines := [] } [] c4Out).2).station_id = none) :=
  ⟨rfl, Or.inl rfl,
    c4_station_id_null_for_continuous { lines := [] } [] "fresh" c4Req c4Out rfl (Or.inl rfl)⟩

/-- Claim C7: on a request without `coords.speed` the accepted outgoing
value keeps `speed` absent (`null`), not `0`; the REST path does coerce a
negative speed to absent and rejects a non-finite speed with HTTP 400. -/
theorem c7_speed_not_defaulted :
    postLocation "fresh" c7Req
      = .ok { id := "id-1", device := "d", state := .moving, station_id := none, line_id := 1
              coords := { latitude := .fin 35, longitude := .fin 139
                          accuracy := none, speed := none }
              timestamp := 123, segment_id := none
              from_station_id := none, to_station_id := none }
    ∧ (none : Option F64) ≠ some (.fin 0)
    ∧ postLocation "fresh" c7ReqNeg
        = .ok { id := "id-1", device := "d", state := .moving, station_id := none, line_id := 1
                coords := { latitude := .fin 35, longitude := .fin 139
                            accuracy := none, speed := none }
                timestamp := 123, segment_id := none
                from_station_id := none, to_station_id := none }
    ∧ postLocation "fresh" c7ReqNan = .error .speedNotFinite
    ∧ PostError.speedNotFinite.status = 400 :=
  ⟨rfl, by decide, rfl, rfl, rfl⟩

/-- Claim C10: `annotate` changes only the three segment fields, and on
the output either all three are populated — with `segment_id` the string
`line:from:to` built from the same values — or all three are cleared. -/
theorem c10_annotate_segment_fields (topo : LineTopology)
    (tracks : List (String × DeviceTrack)) (loc : OutgoingLocation) :
    ((annotate topo tracks loc).2).id = loc.id
    ∧ ((annotate topo tracks loc).2).device = loc.device
    ∧ ((annotate topo tracks loc).2).state = loc.state
    ∧ ((annotate topo tracks loc).2).station_id = loc.station_id
    ∧ ((annotate topo tracks loc).2).line_id = loc.line_id
    ∧ ((annotate topo tracks loc).2).coords = loc.coords
    ∧ ((annotate topo tracks loc).2).timestamp = loc.timestamp
    ∧ ((∃ f t, ((annotate topo tracks loc).2).from_station_id = some f
          ∧ ((annotate topo tracks loc).2).to_station_id = some t
          ∧ ((annotate topo tracks loc).2).segment_id
              = some (toString loc.line_id ++ ":" ++ toString f ++ ":" ++ toString t))
        ∨ (((annotate topo tracks loc).2).segment_id = none
            ∧ ((annotate topo tracks loc).2).from_station_id = none
            ∧ ((annotate topo tracks loc).2).to_station_id = none)) := by
  cases h : (estimateSegment topo tracks loc).2 with
  | none =>
    simp only [annotate]
    rw [h]
    exact ⟨rfl, rfl, rfl, rfl, rfl, rfl, rfl, Or.inr ⟨rfl, rfl, rfl⟩⟩
  | some seg =>
    have hline := (estimateSegment_emits topo tracks loc seg h).1
    simp only [annotate]
    rw [h]
    dsimp only
    refine ⟨rfl, rfl, rfl, rfl, rfl, rfl, rfl,
      Or.inl ⟨seg.from_station_id, seg.to_station_id, rfl, rfl, ?_⟩⟩
    simp only [Segment.segmentId]
    rw [hline]

/-- Claim C1 counterexample: the example duplex `location_update` frame is
not accepted: decoding fails (the duplex message type has only the
`subscribe` variant), the sender gets a unicast `json_parse_error`, the
hub buffer is untouched and nothing is broadcast, so the subscribed
client A receives no frame at all, contradicting the claimed single
`location_update` delivery. -/
theorem c1_counterexample :
    parseIncomingMessage c1Frame = none
    ∧ handleText c1Frame [] ["A"] "B" false
        = { buffer := [], subscribers := ["A"], toSender := [.errorFrame .jsonParseError]
            broadcasts := [], subscribed := false }
    ∧ (handleText c1Frame [] ["A"] "B" false).broadcasts = [] :=
  ⟨rfl, rfl, rfl⟩

/-- Claim C1 as amended: any duplex text frame tagged `location_update`
fails to decode, leaves the hub state untouched, broadcasts nothing (so
no subscriber receives a frame), and unicasts a `json_parse_error` to the
sender. -/
theorem c1_duplex_location_rejected (fields : List (String × Json))
    (buffer subscribers : List String) (cid : String) (sub : Bool)
    (h : lookupField fields "type" = some (.str "location_update")) :
    parseIncomingMessage (.obj fields) = none
    ∧ handleText (.obj fields) buffer subscribers cid sub
        = { buffer := buffer, subscribers := subscribers
            toSender := [.errorFrame .jsonParseError], broadcasts := [], subscribed := sub } := by
  have hp : parseIncomingMessage (.obj fields) = none := by
    unfold parseIncomingMessage
    dsimp only
    rw [h]
    dsimp only
    rw [if_neg (by decide)]
  exact ⟨hp, by unfold handleText; rw [hp]⟩

/-- Witness for the amended C1 at the concrete example frame. -/
theorem c1_duplex_location_rejected_witness :
    lookupField c1Fields "type" = some (.str "location_update")
    ∧ parseIncomingMessage (.obj c1Fields) = none :=
  ⟨rfl, (c1_duplex_location_rejected c1Fields [] [] "B" false rfl).1⟩

/-- Claim C9 counterexample: a header whose entry list contains `thq` and
contains `thq-auth-secret` (after a different `thq-auth-` entry) is still
rejected with `token_mismatch`, because only the first `thq-auth-` entry
is compared; this falsifies the claimed `if and only if`. -/
theorem c9_counterexample :
    ((((splitComma c9Header).map trimWs).filter (fun e => !e.isEmpty)).contains "thq" = true)
    ∧ ((((splitComma c9Header).map trimWs).filter
        (fun e => !e.isEmpty)).contains ("thq-auth-" ++ "secret") = true)
    ∧ enforceWsAuth (some c9Header) { token := some "secret", required := true }
        = .error .tokenMismatch
    ∧ AuthError.tokenMismatch.status = 401 :=
  ⟨by decide, by decide, rfl, rfl⟩

/-- Claim C9 as amended: with auth required and a secret configured, the
upgrade is authorized iff the protocol offer header is present, its list
contains `thq` (case-insensitively), and the first `thq-auth-` entry in
the list carries exactly the secret; the four 401 failures and the 500
failure map as claimed; and `thq` is echoed back iff the client offered
it. -/
theorem c9_ws_auth (header : Option String) (secret : String) :
    (enforceWsAuth header { token := some secret, required := true } = .ok ()
      ↔ ∃ raw, header = some raw
          ∧ (parseProtocolHeader raw).has_thq = true
          ∧ (parseProtocolHeader raw).token = some secret)
    ∧ (AuthError.missingHeader.status = 401 ∧ AuthError.missingThqProtocol.status = 401
        ∧ AuthError.missingToken.status = 401 ∧ AuthError.tokenMismatch.status = 401
        ∧ AuthError.tokenNotConfigured.status = 500)
    ∧ (echoesThq header = true
        ↔ ∃ raw, header = some raw ∧ (parseProtocolHeader raw).has_thq = true) := by
  refine ⟨?_, ⟨rfl, rfl, rfl, rfl, rfl⟩, ?_⟩
  · unfold enforceWsAuth
    cases header with
    | none => simp
    | some raw =>
      simp only [Bool.not_true, Bool.false_eq_true, if_false, Option.some.injEq]
      constructor
      · intro hok
        refine ⟨raw, rfl, ?_, ?_⟩
        · by_contra hthq
          simp only [Bool.not_eq_true] at hthq
          rw [hthq] at hok
          simp at hok
        · rcases hthq : (parseProtocolHeader raw).has_thq with _ | _
          · rw [hthq] at hok; simp at hok
          · rw [hthq] at hok
            simp only [Bool.not_true, Bool.false_eq_true, if_false] at hok
            rcases htok : (parseProtocolHeader raw).token with _ | t
            · rw [htok] at hok; simp at hok
            · rw [htok] at hok
              dsimp only at hok
              by_cases hts : t = secret
              · rw [hts]
              · rw [if_neg hts] at hok; simp at hok
      · rintro ⟨raw2, hraw, hthq, htok⟩
        cases hraw
        rw [hthq, htok]
        simp
  · unfold echoesThq
    cases header with
    | none => simp
    | some raw => simp

/-- Witness for the amended C9 at a concrete accepted header. -/
theorem c9_ws_auth_witness :
    enforceWsAuth (some "thq, thq-auth-s") { token := some "s", required := true } = .ok () :=
  (c9_ws_auth (some "thq, thq-auth-s") "s").1.mpr ⟨"thq, thq-auth-s", rfl, by decide, by decide⟩

/-- In a topology without self-loops, a station never appears in its own
neighbor list. -/
theorem noSelfLoop_spec (t : LineTopology) (hsl : noSelfLoop t = true)
    (line st : Int) (ns : List Int) (h : t.neighborsOf line st = some ns) : st ∉ ns := by
  unfold LineTopology.neighborsOf at h
  rcases hg : t.lines.lookup line with _ | g <;> rw [hg] at h
  · simp at h
  · simp only [Option.some_bind] at h
    have hmemg : (line, g) ∈ t.lines := lookup_mem hg
    have hmemn : (st, ns) ∈ g.neighbors := lookup_mem h
    unfold noSelfLoop at hsl
    rw [List.all_eq_true] at hsl
    have h1 := hsl (line, g) hmemg
    rw [List.all_eq_true] at h1
    have h2 := h1 (st, ns) hmemn
    simpa using h2

/-- Claim C5 counterexample: over the loadable ordered-path topology
`[101, 101]` (a self-loop), two arrivals at station 101 make the
estimator emit the segment `(1, 101, 101)` with equal endpoints. -/
theorem c5_counterexample :
    (estimateSegment c5Topo (estimateSegment c5Topo [] c5Loc1).1 c5Loc2).2
      = some { line_id := 1, from_station_id := 101, to_station_id := 101 }
    ∧ ({ line_id := 1, from_station_id := 101, to_station_id := 101 } : Segment).from_station_id
      = ({ line_id := 1, from_station_id := 101, to_station_id := 101 } : Segment).to_station_id :=
  ⟨by decide, rfl⟩

/-- Claim C5 as amended: over a loaded topology in which no station lists
itself as a neighbor, every emitted segment `(L, A, B)` joins neighbors
`A` and `B` in the line graph of `L` with `A ≠ B`. -/
theorem c5_segment_validity (topo : LineTopology) (tracks : List (String × DeviceTrack))
    (loc : OutgoingLocation) (seg : Segment)
    (hself : noSelfLoop topo = true)
    (h : (estimateSegment topo tracks loc).2 = some seg) :
    (∃ ns, topo.neighborsOf seg.line_id seg.from_station_id = some ns
        ∧ seg.to_station_id ∈ ns)
    ∧ seg.from_station_id ≠ seg.to_station_id := by
  obtain ⟨hline, ns, hns, hmem⟩ := estimateSegment_emits topo tracks loc seg h
  refine ⟨⟨ns, by rw [hline]; exact hns, hmem⟩, ?_⟩
  intro heq
  exact noSelfLoop_spec topo hself loc.line_id seg.from_station_id ns hns (heq ▸ hmem)

/-- Witness for the amended C5: on the path 101 - 102 - 103 the second
arrival emits `(1, 101, 102)`, a genuine neighbor pair with distinct
endpoints. -/
theorem c5_segment_validity_witness :
    noSelfLoop pathTopo = true
    ∧ (estimateSegment pathTopo (estimateSegment pathTopo [] c5WitLoc1).1 c5WitLoc2).2
        = some { line_id := 1, from_station_id := 101, to_station_id := 102 }
    ∧ ((∃ ns, pathTopo.neighborsOf 1 101 = some ns ∧ (102 : Int) ∈ ns)
        ∧ (101 : Int) ≠ 102) :=
  ⟨by decide, by decide,
    c5_segment_validity pathTopo (estimateSegment pathTopo [] c5WitLoc1).1 c5WitLoc2
      { line_id := 1, from_station_id := 101, to_station_id := 102 } (by decide) (by decide)⟩

/-- Claim C6: on a continuous update on the track's line with a last
station set, the estimator emits the segment from the last station to the
smallest neighbor that is not the previous station and stores it as
`last_segment`; when no such neighbor exists, nothing is emitted. -/
theorem c6_continuous_smallest_nonprev (topo : LineTopology) (track : DeviceTrack)
    (loc : OutgoingLocation) (last : StationPoint) (ns : List Int)
    (hlast : track.last_station = some last)
    (hline : last.line_id = loc.line_id)
    (hns : (topo.neighborsOf loc.line_id last.station_id).getD [] = ns) :
    (ns.filter (fun x => some x ≠ track.prev_station.map (·.station_id)) = [] →
      (handleContinuous topo track loc).2 = none)
    ∧ ∀ c, c ∈ ns.filter (fun x => some x ≠ track.prev_station.map (·.station_id)) →
        (∀ x ∈ ns.filter (fun x => some x ≠ track.prev_station.map (·.station_id)), c ≤ x) →
        (handleContinuous topo track loc).2
            = some { line_id := loc.line_id, from_station_id := last.station_id
                     to_station_id := c }
          ∧ (handleContinuous topo track loc).1.last_segment
            = some { line_id := loc.line_id, from_station_id := last.station_id
                     to_station_id := c } := by
  have hdiff : trackOnDifferentLine track loc.line_id = false := by
    unfold trackOnDifferentLine
    rw [hlast]
    simp [hline]
  unfold handleContinuous
  rw [hdiff]
  simp only [Bool.false_eq_true, if_false]
  rw [hlast]
  dsimp only
  rcases hnb : topo.neighborsOf loc.line_id last.station_id with _ | n
  · rw [hnb] at hns
    simp only [Option.getD_none] at hns
    subst hns
    exact ⟨fun _ => rfl, fun c hc _ => absurd hc (by simp)⟩
  · rw [hnb] at hns
    simp only [Option.getD_some] at hns
    subst hns
    dsimp only
    by_cases hne : n.isEmpty
    · rw [if_pos hne]
      have hnil : n = [] := by simpa [List.isEmpty_iff] using hne
      subst hnil
      exact ⟨fun _ => rfl, fun c hc _ => absurd hc (by simp)⟩
    · rw [if_neg hne]
      by_cases hce : (List.filter (fun x =>
          decide (some x ≠ Option.map (fun p => p.station_id) track.prev_station)) n).isEmpty
      · rw [if_pos hce]
        have hnil := List.isEmpty_iff.mp hce
        constructor
        · intro _; rfl
        · intro c hc _
          rw [hnil] at hc
          exact absurd hc (by simp)
      · rw [if_neg hce]
        rcases hsort : List.insertionSort (fun a b => a ≤ b)
            (List.filter (fun x =>
              decide (some x ≠ Option.map (fun p => p.station_id) track.prev_station)) n)
          with _ | ⟨c0, rest⟩
        · exfalso
          have hperm := List.perm_insertionSort (fun a b : Int => a ≤ b)
            (List.filter (fun x =>
              decide (some x ≠ Option.map (fun p => p.station_id) track.prev_station)) n)
          rw [hsort] at hperm
          exact hce (List.isEmpty_iff.mpr hperm.nil_eq.symm)
        · constructor
          · intro hnil
            rw [hnil] at hce
            simp at hce
          · intro c hc hmin
            have hperm := List.perm_insertionSort (fun a b : Int => a ≤ b)
              (List.filter (fun x =>
                decide (some x ≠ Option.map (fun p => p.station_id) track.prev_station)) n)
            have hc0mem : c0 ∈ List.filter (fun x =>
                decide (some x ≠ Option.map (fun p => p.station_id) track.prev_station)) n := by
              refine hperm.mem_iff.mp ?_
              rw [hsort]
              exact List.mem_cons_self _ _
            have hsorted := List.sorted_insertionSort (fun a b : Int => a ≤ b)
              (List.filter (fun x =>
                decide (some x ≠ Option.map (fun p => p.station_id) track.prev_station)) n)
            rw [hsort] at hsorted
            have hc0le : ∀ x ∈ List.filter (fun x =>
                decide (some x ≠ Option.map (fun p => p.station_id) track.prev_station)) n,
                c0 ≤ x := by
              intro x hx
              have hx2 : x ∈ c0 :: rest := by
                rw [← hsort]
                exact hperm.symm.subset hx
              rcases List.mem_cons.mp hx2 with hx3 | hx3
              · exact le_of_eq hx3.symm
              · exact List.rel_of_sorted_cons hsorted x hx3
            have hcc : c = c0 := le_antisymm (hmin c0 hc0mem) (hc0le c hc)
            subst hcc
            rw [hsort]
            exact ⟨rfl, rfl⟩

/-- Witness for C6: track at 102 coming from 101 on the path
101 - 102 - 103, a moving update picks 103. -/
theorem c6_continuous_witness :
    (handleContinuous pathTopo c6Track c6Loc).2
        = some { line_id := 1, from_station_id := 102, to_station_id := 103 }
    ∧ (handleContinuous pathTopo c6Track c6Loc).1.last_segment
        = some { line_id := 1, from_station_id := 102, to_station_id := 103 } :=
  (c6_continuous_smallest_nonprev pathTopo c6Track c6Loc
      { station_id := 102, line_id := 1 } [101, 103] rfl rfl (by decide)).2
    103 (by decide) (by decide)

/-- The rounded-up integer division `(a + b - 1) / b` computes the
rational ceiling of `a / b` for positive operands. -/
theorem ceil_div_eq_estimate (a b : Int) (hb : 0 < b) :
    ⌈(a : ℚ) / (b : ℚ)⌉ = (a + b - 1) / b := by
  have hbq : (0 : ℚ) < (b : ℚ) := by exact_mod_cast hb
  have hmod := Int.ediv_add_emod (a + b - 1) b
  have hr0 : 0 ≤ (a + b - 1) % b := Int.emod_nonneg _ (by omega)
  have hrb : (a + b - 1) % b < b := Int.emod_lt_of_pos _ hb
  have h1 : a ≤ b * ((a + b - 1) / b) := by linarith
  have h2 : b * ((a + b - 1) / b) - b < a := by linarith
  refine le_antisymm ?_ ?_
  · apply Int.ceil_le.mpr
    rw [div_le_iff₀ hbq]
    calc (a : ℚ) ≤ ((b * ((a + b - 1) / b) : Int) : ℚ) := by exact_mod_cast h1
      _ = (((a + b - 1) / b : Int) : ℚ) * (b : ℚ) := by push_cast; ring
  · have hlt : ((a + b - 1) / b - 1 : Int) < ⌈(a : ℚ) / (b : ℚ)⌉ := by
      apply Int.lt_ceil.mpr
      rw [lt_div_iff₀ hbq]
      calc (((a + b - 1) / b - 1 : Int) : ℚ) * (b : ℚ)
          = ((b * ((a + b - 1) / b) - b : Int) : ℚ) := by push_cast; ring
        _ < (a : ℚ) := by exact_mod_cast h2
    omega

/-- The bucket width of every bucket size is positive. -/
theorem bucketSeconds_pos (b : TimeBucketSize) : 0 < b.bucketSeconds := by
  cases b <;> decide

/-- Claim C8: the resolver fails exactly when storage is unconfigured,
`from ≥ to`, the span exceeds the per-bucket-size maximum (7, 90 or 365
days), the rounded-up bucket count exceeds the hard cap 2000, or the line
id is not numeric; otherwise it calls `fetch_line_accuracy` with the
parsed line id, the same range, the bucket unit and width, and the limit
(default 500) clamped into `[1, 2000]`. -/
theorem c8_accuracy_by_line (storageEnabled : Bool) (line_id : String)
    (fromTs toTs : Int) (bucket_size : TimeBucketSize) (limitArg : Option Int) :
    ((∃ e, accuracyByLine storageEnabled line_id fromTs toTs bucket_size limitArg = .error e)
      ↔ (storageEnabled = false ∨ toTs ≤ fromTs
          ∨ bucket_size.maxDurationSecs < toTs - fromTs
          ∨ hardLimit < ⌈((toTs - fromTs : Int) : ℚ) / ((bucket_size.bucketSeconds : Int) : ℚ)⌉
          ∨ parseI32 line_id = none))
    ∧ (∀ call, accuracyByLine storageEnabled line_id fromTs toTs bucket_size limitArg
          = .ok call →
        call.limit = max 1 (min (limitArg.getD 500) 2000)
        ∧ parseI32 line_id = some call.line_id
        ∧ call.fromTs = fromTs ∧ call.toTs = toTs
        ∧ call.truncUnit = bucket_size.truncUnit
        ∧ call.bucket_seconds = bucket_size.bucketSeconds) := by
  have hbs := bucketSeconds_pos bucket_size
  refine ⟨?_, ?_⟩
  · unfold accuracyByLine
    by_cases h1 : storageEnabled
    case neg =>
      rw [if_pos (by simp [h1])]
      simp [h1]
    case pos =>
      rw [if_neg (by simp [h1])]
      by_cases h2 : toTs ≤ fromTs
      · rw [if_pos h2]
        simp [h1, h2]
      · rw [if_neg h2]
        by_cases h3 : bucket_size.maxDurationSecs < toTs - fromTs
        · rw [if_pos h3]
          simp [h1, h2, h3]
        · rw [if_neg h3]
          dsimp only
          have hceq : ⌈((toTs : ℚ) - (fromTs : ℚ)) / ((bucket_size.bucketSeconds : Int) : ℚ)⌉
              = estimateBucketCount fromTs toTs bucket_size.bucketSeconds := by
            unfold estimateBucketCount
            rw [if_neg (by omega)]
            rw [show ((toTs : ℚ) - (fromTs : ℚ)) = ((toTs - fromTs : Int) : ℚ) by push_cast; ring]
            exact ceil_div_eq_estimate _ _ hbs
          by_cases h4 : hardLimit < estimateBucketCount fromTs toTs bucket_size.bucketSeconds
          · rw [if_pos h4]
            simp [h1, h2, h3, hceq, h4]
          · rw [if_neg h4]
            rcases hp : parseI32 line_id with _ | nid
            · simp [h1, h2, h3, hceq, h4]
            · simp [h1, h2, h3, hceq, h4]
  · intro call hcall
    unfold accuracyByLine at hcall
    split at hcall
    · cases hcall
    · split at hcall
      · cases hcall
      · split at hcall
        · cases hcall
        · dsimp only at hcall
          split at hcall
          · cases hcall
          · split at hcall
            · cases hcall
            next nid hp =>
              cases hcall
              exact ⟨rfl, by rw [hp], rfl, rfl, rfl, rfl⟩

/-- Witness for C8: an enabled store, a one-hour minute-bucketed range
and an omitted limit produce the fetch call with limit 500. -/
theorem c8_accuracy_by_line_witness :
    accuracyByLine true "7" 0 3600 .minute none
      = .ok { line_id := 7, fromTs := 0, toTs := 3600, truncUnit := "minute"
              bucket_seconds := 60, limit := 500 }
    ∧ ({ line_id := 7, fromTs := 0, toTs := 3600, truncUnit := "minute"
         bucket_seconds := 60, limit := 500 } : FetchCall).limit
        = max 1 (min ((none : Option Int).getD 500) 2000) :=
  ⟨rfl, ((c8_accuracy_by_line true "7" 0 3600 .minute none).2 _ rfl).1⟩

end THQ
